import Mathlib

/-!
Verification of `src/server/editor/scripts/ue_blueprint_to_text.py`.

The script walks host-supplied (Unreal editor) objects and emits a JSON
document.  Every host read (`get_editor_property`, `get_name`,
`get_class`, ...) may raise; the Python code wraps most reads in
`try/except`.  We shallow-embed each host object as a record whose
fallible reads are `Option`-valued: `none` means "the read raises",
`some v` means "the read succeeds with (stringified) value `v`".
Two distinct failure modes of the source are collapsed into one `none`
only when they provably lead to the same output (e.g. a guarded read
that raises versus one that returns a falsy value, when both merely
omit the output field); where the control flow distinguishes them
(e.g. a component's parent read, where raising drops the whole record
but a falsy value only omits the `parent` key) the model keeps the
distinction with a nested `Option`.

Python string truthiness (`if s:`) is modelled as `s ≠ ""`.

Output documents have a fixed schema, so each JSON fragment is a Lean
structure with `Option` fields; a field being `none` means the key is
absent from the emitted JSON object.

Top-level asset identity reads (`asset.get_name()`,
`asset.get_path_name()`, `asset.get_class().get_name()`), which the
source performs without any guard, are modelled as total attributes of
a successfully loaded asset: the host API supplies class/name
introspection for every live object (spec §6).  Node- and graph-level
identity reads are kept fallible because the surrounding loops catch
their failures.
-/

set_option autoImplicit false

namespace UeBlueprintToText

/-- Substring test on `List Char`, used to model Python's `in` operator
on strings. -/
def listContainsSub (pat : List Char) : List Char → Bool
  | [] => pat.isEmpty
  | c :: cs => pat.isPrefixOf (c :: cs) || listContainsSub pat cs

/-- `strContainsSub s pat` models Python `pat in s`. -/
def strContainsSub (s pat : String) : Bool :=
  listContainsSub pat.data s.data

/-- ASCII uppercase of one character (direction strings are ASCII enum
representations, so Python `str.upper()` restricted to ASCII is
faithful here). -/
def charUpper (c : Char) : Char :=
  if 97 ≤ c.toNat ∧ c.toNat ≤ 122 then Char.ofNat (c.toNat - 32) else c

/-- Python `direction.upper()`, as a structural map over the
characters. -/
def strToUpper (s : String) : String :=
  String.mk (s.data.map charUpper)

/-- Source: `"INPUT" in direction.upper() or "EGPD_INPUT" in direction.upper()`
(`serialize_pin`, line 31). -/
def isInputDir (dir : String) : Bool :=
  strContainsSub (strToUpper dir) "INPUT" || strContainsSub (strToUpper dir) "EGPD_INPUT"

/-- The `pin_type` sub-object of a pin.
`pin_category` : `none` = reading `pin_category` raises.
`pin_sub_category_object` : outer `none` = reading the sub-object raises,
or it is truthy but its `get_name()` raises (both yield `"unknown"`);
`some none` = the sub-object is falsy; `some (some s)` = sub-object with
name `s`. -/
structure PinType where
  pin_category : Option String
  pin_sub_category_object : Option (Option String)
  deriving Repr, DecidableEq

/-- One pin wired to another pin (an element of `linked_to`).
`owner_class` : `get_owning_node().get_class().get_name()`; `none` = some
step raises.  `pin_name` : `none` = the read raises. -/
structure LinkedPin where
  owner_class : Option String
  pin_name : Option String
  deriving Repr, DecidableEq

/-- A host pin object.
`direction` : the stringified raw direction; `none` = the read raises.
`pin_name` : `none` = the read raises.
`pin_type` : `none` = reading `pin_type` raises.
`default_value` : the stringified default; `none` = the read raises
(truthiness of the raw value is `s ≠ ""` on the string).
`linked_to` : `none` = the read raises. -/
structure Pin where
  direction : Option String
  pin_name : Option String
  pin_type : Option PinType
  default_value : Option String
  linked_to : Option (List LinkedPin)
  deriving Repr, DecidableEq

/-- Source `get_pin_default` (lines 6-13): read `default_value`; return
its string if truthy, else `None`; a raise also yields `None`. -/
def get_pin_default (p : Pin) : Option String :=
  match p.default_value with
  | none => none
  | some s => if s ≠ "" then some s else none

/-- Source `get_pin_type_str` (lines 16-25). -/
def get_pin_type_str (p : Pin) : String :=
  match p.pin_type with
  | none => "unknown"
  | some t =>
    match t.pin_category with
    | none => "unknown"
    | some cat =>
      match t.pin_sub_category_object with
      | none => "unknown"
      | some none => cat
      | some (some subName) => cat ++ "(" ++ subName ++ ")"

/-- The JSON fragment emitted for one pin.  `ptype` is the JSON key
`"type"`; other field names match the JSON keys. -/
structure PinFrag where
  name : String
  direction : String
  ptype : String
  default : Option String
  connected_to : Option (List String)
  deriving Repr, DecidableEq

/-- The fallback fragment returned when `serialize_pin`'s outer `try`
catches (line 54). -/
def fallbackPinFrag : PinFrag :=
  { name := "unknown", direction := "unknown", ptype := "unknown"
    default := none, connected_to := none }

/-- The loop of `serialize_pin` lines 45-47: build the `connections`
list; a raise while resolving any endpoint aborts the whole loop, and
`info["connected_to"]` is only assigned after the loop completes, so the
result is all-or-nothing. -/
def resolveLinks : List LinkedPin → Option (List String)
  | [] => some []
  | l :: ls =>
    match l.owner_class, l.pin_name with
    | some oc, some pn =>
      match resolveLinks ls with
      | none => none
      | some rest => some ((oc ++ ":" ++ pn) :: rest)
    | _, _ => none

/-- Source `serialize_pin` (lines 28-54).  The outer `try` raises only
from the `direction` or `pin_name` reads (the type/default/linked parts
are internally guarded), in which case the fallback fragment is
returned. -/
def serialize_pin (p : Pin) : PinFrag :=
  match p.direction, p.pin_name with
  | some dir, some nm =>
    { name := nm
      direction := if isInputDir dir then "Input" else "Output"
      ptype := get_pin_type_str p
      default :=
        match get_pin_default p with
        | none => none
        | some d => if d ≠ "" then some d else none
      connected_to :=
        match p.linked_to with
        | none => none
        | some ls => if ls.isEmpty then none else resolveLinks ls }
  | _, _ => fallbackPinFrag

/-- The `function_reference` sub-object of a call-function node.
`member_name` : `none` = the read raises (which aborts the whole guarded
block before anything is set).  `member_parent` : `none` = the read
raises, the value is falsy, or its `get_name()` raises (each leaves
`target_class` absent while keeping an already-set `function`);
`some s` = parent object whose name is `s`. -/
structure MemberRef where
  member_name : Option String
  member_parent : Option String
  deriving Repr, DecidableEq

/-- A host graph-node object.
`nodeClass` : `node.get_class().get_name()` (line 58), unguarded —
`none` makes `serialize_node` raise.
`nodeName` : `node.get_name()` (line 61), unguarded likewise.
`node_comment` : `none` = the guarded read raises (or yields `None`).
`function_reference` : `none` = the read raises or the value is falsy.
`variable_reference` : `none` = any step of
`var_ref.get_editor_property("member_name")` raises or `var_ref` is
falsy; `some s` = the stringified member name.
`custom_function_name` : `none` = the read raises.
`event_reference` : `none` = the read raises, the reference is falsy, or
its `member_name` read raises; `some s` = the stringified member name.
`macro_graph_reference` : `none` = the read raises, the reference is
falsy, or its `get_name()` raises; `some s` = the graph name.
`pins` : `none` = reading the `pins` collection raises. -/
structure Node where
  nodeClass : Option String
  nodeName : Option String
  node_comment : Option String
  function_reference : Option MemberRef
  variable_reference : Option String
  custom_function_name : Option String
  event_reference : Option String
  macro_graph_reference : Option String
  pins : Option (List Pin)
  deriving Repr, DecidableEq

/-- The JSON fragment emitted for one node.  `nclass`/`nname` are the
JSON keys `"class"`/`"name"`; `macroGraph` is the JSON key `"macro"`;
`varRef` is the JSON key `"variable"`. -/
structure NodeFrag where
  nclass : String
  nname : String
  comment : Option String
  function : Option String
  target_class : Option String
  varRef : Option String
  event_name : Option String
  macroGraph : Option String
  pins : Option (List PinFrag)
  deriving Repr, DecidableEq

/-- `serialize_node` lines 71-82: the `K2Node_CallFunction` block.
Returns the `(function, target_class)` pair.  A raise of the
`member_name` read aborts before either key is set; a raise of the
`member_parent` read keeps an already-set `function`. -/
def callFunctionFields (n : Node) : Option String × Option String :=
  match n.function_reference with
  | none => (none, none)
  | some ref =>
    match ref.member_name with
    | none => (none, none)
    | some mn => (if mn ≠ "" then some mn else none, ref.member_parent)

/-- `serialize_node` lines 71-106: the kind-dispatch `elif` chain.
Returns `(function, target_class, variable, event_name, macro)`. -/
def extFields (nc : String) (n : Node) :
    Option String × Option String × Option String × Option String × Option String :=
  if nc = "K2Node_CallFunction" then
    let ft := callFunctionFields n
    (ft.1, ft.2, none, none, none)
  else if nc = "K2Node_VariableGet" ∨ nc = "K2Node_VariableSet" then
    (none, none, n.variable_reference, none, none)
  else if nc = "K2Node_Event" ∨ nc = "K2Node_CustomEvent" then
    (none, none, none,
      if nc = "K2Node_CustomEvent" then n.custom_function_name else n.event_reference,
      none)
  else if nc = "K2Node_MacroInstance" then
    (none, none, none, none, n.macro_graph_reference)
  else
    (none, none, none, none, none)

/-- The pin-name filter of `serialize_node` line 114: a pin is kept iff
its name is readable and not `execute`, `then` or empty. -/
def pinKept (p : Pin) : Bool :=
  match p.pin_name with
  | none => false
  | some nm => !(nm == "execute" || nm == "then" || nm == "")

/-- The loop of `serialize_node` lines 112-116: read each pin's name
(a raise aborts the whole block and loses the partial list, since
`info["pins"]` is assigned only after the loop), skip the sentinel
names, serialize the rest in order. -/
def collectPins : List Pin → Option (List PinFrag)
  | [] => some []
  | p :: ps =>
    match p.pin_name with
    | none => none
    | some nm =>
      if nm = "execute" ∨ nm = "then" ∨ nm = "" then collectPins ps
      else
        match collectPins ps with
        | none => none
        | some rest => some (serialize_pin p :: rest)

/-- `serialize_node` lines 108-120: the guarded `pins` block.  The key
is absent when the collection read raises, the collection is falsy
(empty), any pin-name read raises, or the filtered list is empty. -/
def nodePinsField (n : Node) : Option (List PinFrag) :=
  match n.pins with
  | none => none
  | some ps =>
    if ps.isEmpty then none
    else
      match collectPins ps with
      | none => none
      | some l => if l.isEmpty then none else some l

/-- Source `serialize_node` (lines 57-122).  The identity reads at
lines 58 and 61 are unguarded, so their failure makes the whole call
raise (`none`); everything below them is guarded. -/
def serialize_node (n : Node) : Option NodeFrag :=
  match n.nodeClass, n.nodeName with
  | some nc, some nm =>
    let ext := extFields nc n
    some
      { nclass := nc
        nname := nm
        comment :=
          match n.node_comment with
          | none => none
          | some c => if c ≠ "" then some c else none
        function := ext.1
        target_class := ext.2.1
        varRef := ext.2.2.1
        event_name := ext.2.2.2.1
        macroGraph := ext.2.2.2.2
        pins := nodePinsField n }
  | _, _ => none

/-- A host graph object.
`gname` : `graph.get_name()` (line 127), unguarded — `none` makes
`serialize_graph` raise, which the orchestrator's per-category `try`
catches, aborting the rest of that category.
`gclass` : the guarded `get_class().get_name()` read (lines 130-133);
`none` = it raises.
`gnodes` : `none` = reading the `nodes` collection raises. -/
structure Graph where
  gname : Option String
  gclass : Option String
  gnodes : Option (List Node)
  deriving Repr, DecidableEq

/-- The JSON fragment emitted for one graph.  `gname`/`gclass` are the
JSON keys `"name"`/`"class"`.  `nodes` is NOT optional: `serialize_graph`
always assigns `graph_info["nodes"]` (line 144).  `graph_type` is
stamped by the orchestrator after `serialize_graph` returns. -/
structure GraphFrag where
  gname : String
  gclass : Option String
  nodes : List NodeFrag
  graph_type : Option String
  deriving Repr, DecidableEq

/-- The loop of `serialize_graph` lines 139-140: a raise from
`serialize_node` aborts the loop but keeps the fragments already
appended to the local `nodes` list. -/
def collectNodesLoop : List Node → List NodeFrag
  | [] => []
  | n :: rest =>
    match serialize_node n with
    | none => []
    | some frag => frag :: collectNodesLoop rest

/-- `serialize_graph` lines 135-144: read the `nodes` collection (a
raise or a falsy collection leaves the local list empty) and run the
node loop; the result is always assigned to the `nodes` key. -/
def collectNodes : Option (List Node) → List NodeFrag
  | none => []
  | some ns => collectNodesLoop ns

/-- Source `serialize_graph` (lines 125-145).  Raises (`none`) only if
the unguarded `graph.get_name()` does. -/
def serialize_graph (g : Graph) : Option GraphFrag :=
  match g.gname with
  | none => none
  | some nm =>
    some
      { gname := nm
        gclass := g.gclass
        nodes := collectNodes g.gnodes
        graph_type := none }

/-- One declared property of the generated class.
`pname` : `prop.get_name()`; `none` = it raises (the per-property `try`
catches and `continue`s, skipping the record).
`pclass` : `prop.get_class().get_name()`; `none` likewise.
`defaultVal` : the guarded `cdo.get_editor_property(prop_name)` read;
`none` = it raises or the value is `None`; `some s` = the stringified
value (note the source tests `is not None`, not truthiness, so `s` may
be empty).
`f_visible` / `f_readonly` / `f_editany` / `f_replicate` : the four
`has_any_property_flags` calls, in source order, inside one `try`;
`none` = the call raises, aborting the later checks but keeping the
flags already set. -/
structure PropRec where
  pname : Option String
  pclass : Option String
  defaultVal : Option String
  f_visible : Option Bool
  f_readonly : Option Bool
  f_editany : Option Bool
  f_replicate : Option Bool
  deriving Repr, DecidableEq

/-- The JSON fragment for one property.  `pname`/`pclass` are the JSON
keys `"name"`/`"property_class"`; each `Bool` field models a key that is
present iff the flag test succeeded and returned true. -/
structure PropFrag where
  pname : String
  property_class : String
  default_value : Option String
  blueprint_visible : Bool
  blueprint_read_only : Bool
  edit_anywhere : Bool
  replicated : Bool
  deriving Repr, DecidableEq

/-- `get_property_info` lines 172-182: the four sequential flag checks
inside one `try`; a raise keeps earlier flags and leaves the rest
false (unset). -/
def propFlags (p : PropRec) : Bool × Bool × Bool × Bool :=
  match p.f_visible with
  | none => (false, false, false, false)
  | some v =>
    match p.f_readonly with
    | none => (v, false, false, false)
    | some r =>
      match p.f_editany with
      | none => (v, r, false, false)
      | some e =>
        match p.f_replicate with
        | none => (v, r, e, false)
        | some rep => (v, r, e, rep)

/-- `get_property_info` lines 156-186: one property record; `none` = the
per-property `try` caught a raise before `properties.append`, i.e. the
record is skipped (`continue`). -/
def serializeProp (p : PropRec) : Option PropFrag :=
  match p.pname, p.pclass with
  | some n, some c =>
    let fl := propFlags p
    some
      { pname := n
        property_class := c
        default_value := p.defaultVal
        blueprint_visible := fl.1
        blueprint_read_only := fl.2.1
        edit_anywhere := fl.2.2.1
        replicated := fl.2.2.2 }
  | _, _ => none

/-- The generated class of the asset.
`gcname` : `gen_class.get_name()` (line 237); `none` = it raises, which
aborts the guarded block before `parent_class` is attempted.
`superClass` : `none` = `get_super_class()` raises, is falsy, or the
parent's `get_name()` raises; `some s` = the parent class name.
`hasCdo` : whether `unreal.get_default_object` succeeds with a truthy
default object (lines 151-153; a raise or a falsy result both return the
empty property list).
`props` : the `bp_class.properties()` call; `none` = it raises. -/
structure GenClass where
  gcname : Option String
  superClass : Option String
  hasCdo : Bool
  props : Option (List PropRec)
  deriving Repr, DecidableEq

/-- Source `get_property_info` (lines 148-190). -/
def get_property_info (gc : GenClass) : List PropFrag :=
  if !gc.hasCdo then []
  else
    match gc.props with
    | none => []
    | some ps => ps.filterMap serializeProp

/-- One node of the simple-construction script.
`template` : `none` = reading `component_template` raises or the value
is falsy (both skip the record).
`tname` / `tclass` : the template's `get_name()` and
`get_class().get_name()`; `none` = a raise, which the per-node `try`
turns into skipping the whole record.
`parent_read` : outer `none` = reading
`parent_component_or_variable_name` raises (which drops the whole
record, since the read happens before `components.append`); `some none`
= the value is falsy (record kept, `parent` key absent);
`some (some s)` = truthy value with string `s`. -/
structure SCSNode where
  template : Option Unit
  tname : Option String
  tclass : Option String
  parent_read : Option (Option String)
  deriving Repr, DecidableEq

/-- The JSON fragment for one component. `cname`/`cclass` are the JSON
keys `"name"`/`"class"`. -/
structure CompFrag where
  cname : String
  cclass : String
  parent : Option String
  deriving Repr, DecidableEq

/-- `get_components` lines 199-214: one construction-script node;
`none` = the record is skipped (falsy template or a caught raise). -/
def serializeComp (s : SCSNode) : Option CompFrag :=
  match s.template with
  | none => none
  | some _ =>
    match s.tname, s.tclass with
    | some n, some c =>
      match s.parent_read with
      | none => none
      | some pr =>
        some { cname := n, cclass := c, parent := pr }
    | _, _ => none

/-- A host asset object, as seen by `blueprint_to_text` after a
successful `load_asset`.
`aname` / `apath` / `aclass` : the unguarded identity reads
(`get_name()`, `get_path_name()`, `get_class().get_name()`), modelled as
total host attributes.
`isBlueprint` : the `isinstance(asset, unreal.Blueprint)` test.
`generated_class` : `none` = the guarded read raises or the value is
falsy (the source reads the property twice, lines 235 and 265, with the
same result).
`blueprint_type` : `none` = the read raises; `some s` = the stringified
value (set unconditionally inside the `try`, no truthiness check).
`implemented_interfaces` : `none` = the read raises; each element is the
result of resolving one record: `none` = its `interface` read raises,
is falsy, or its `get_name()` raises (the record is dropped), `some s` =
the interface class name.
`scs` : `none` = reading `simple_construction_script` raises, it is
falsy, or `get_all_nodes()` raises (all yield no components).
`ubergraph_pages` / `function_graphs` / `macro_graphs` : `none` = the
guarded collection read raises. -/
structure Asset where
  aname : String
  apath : String
  isBlueprint : Bool
  aclass : String
  generated_class : Option GenClass
  blueprint_type : Option String
  implemented_interfaces : Option (List (Option String))
  scs : Option (List SCSNode)
  ubergraph_pages : Option (List Graph)
  function_graphs : Option (List Graph)
  macro_graphs : Option (List Graph)
  deriving Repr, DecidableEq

/-- Source `get_components` (lines 193-218). -/
def get_components (a : Asset) : List CompFrag :=
  match a.scs with
  | none => []
  | some ns => ns.filterMap serializeComp

/-- The output document of `blueprint_to_text`.  Field names match the
JSON keys; a `none` field means the key is absent. -/
structure ResultDoc where
  error : Option String
  name : Option String
  path : Option String
  generated_class : Option String
  parent_class : Option String
  blueprint_type : Option String
  interfaces : Option (List String)
  varList : Option (List PropFrag)
  components : Option (List CompFrag)
  graphs : Option (List GraphFrag)
  deriving Repr, DecidableEq

/-- An error document: the `error` key and nothing else (source lines
224 and 227 return a one-key dict). -/
def errDoc (msg : String) : ResultDoc :=
  { error := some msg, name := none, path := none, generated_class := none
    parent_class := none, blueprint_type := none, interfaces := none
    varList := none, components := none, graphs := none }

/-- `blueprint_to_text` lines 234-242: the guarded
`generated_class`/`parent_class` block; returns the pair of emitted
values.  A raise of `gen_class.get_name()` aborts before either key is
set. -/
def genClassFields (a : Asset) : Option String × Option String :=
  match a.generated_class with
  | none => (none, none)
  | some gc =>
    match gc.gcname with
    | none => (none, none)
    | some n => (some n, gc.superClass)

/-- `blueprint_to_text` lines 250-262: the interfaces block.  The key is
set to `[]` before the resolution loop runs, so when the collection is
non-empty the key is always present, holding the resolutions that
succeeded (possibly none of them). -/
def interfacesField (a : Asset) : Option (List String) :=
  match a.implemented_interfaces with
  | none => none
  | some l => if l.isEmpty then none else some (l.filterMap id)

/-- `blueprint_to_text` lines 264-271: the variables block. -/
def variablesField (a : Asset) : Option (List PropFrag) :=
  match a.generated_class with
  | none => none
  | some gc =>
    let ps := get_property_info gc
    if ps.isEmpty then none else some ps

/-- `blueprint_to_text` line 273-275: the components block. -/
def componentsField (a : Asset) : Option (List CompFrag) :=
  let cs := get_components a
  if cs.isEmpty then none else some cs

/-- The per-category loop (`blueprint_to_text` lines 282-285, 292-295,
302-305): serialize each graph, stamp `graph_type`, append.  A raise
from `serialize_graph` aborts the category's loop but keeps the
fragments already appended to the shared `graphs` list. -/
def appendGraphsLoop (tag : String) : List Graph → List GraphFrag → List GraphFrag
  | [], acc => acc
  | g :: rest, acc =>
    match serialize_graph g with
    | none => acc
    | some frag => appendGraphsLoop tag rest (acc ++ [{ frag with graph_type := some tag }])

/-- One guarded category block: a raise of the collection read, or a
falsy (empty) collection, leaves the shared list untouched. -/
def appendCat (tag : String) (coll : Option (List Graph)) (acc : List GraphFrag) :
    List GraphFrag :=
  match coll with
  | none => acc
  | some gs => if gs.isEmpty then acc else appendGraphsLoop tag gs acc

/-- `blueprint_to_text` lines 277-310: the three category blocks in
source order, then the emptiness check. -/
def graphsField (a : Asset) : Option (List GraphFrag) :=
  let gs := appendCat "Macro" a.macro_graphs
      (appendCat "Function" a.function_graphs
        (appendCat "EventGraph" a.ubergraph_pages []))
  if gs.isEmpty then none else some gs

/-- Source `blueprint_to_text` (lines 221-312).  The `load_asset` result
is passed in as `asset?` (`none` = the path resolves to nothing /
`load_asset` returns a falsy value). -/
def blueprint_to_text (asset_path : String) (asset? : Option Asset) : ResultDoc :=
  match asset? with
  | none => errDoc ("Asset not found: " ++ asset_path)
  | some a =>
    if !a.isBlueprint then
      errDoc ("Asset is not a Blueprint: " ++ asset_path ++ " (class: " ++ a.aclass ++ ")")
    else
      { error := none
        name := some a.aname
        path := some a.apath
        generated_class := (genClassFields a).1
        parent_class := (genClassFields a).2
        blueprint_type := a.blueprint_type
        interfaces := interfacesField a
        varList := variablesField a
        components := componentsField a
        graphs := graphsField a }

/-! ## Helper lemmas -/

/-- If every pin name in the list is readable, the pin loop succeeds and
returns exactly the kept pins, serialized in order. -/
theorem collectPins_all_readable (ps : List Pin)
    (h : ∀ p ∈ ps, p.pin_name ≠ none) :
    collectPins ps = some ((ps.filter pinKept).map serialize_pin) := by
  induction ps with
  | nil => rfl
  | cons p ps ih =>
    have hp := h p (by simp)
    cases hnm : p.pin_name with
    | none => exact absurd hnm hp
    | some nm =>
      have ih' := ih (fun q hq => h q (by simp [hq]))
      by_cases hs : nm = "execute" ∨ nm = "then" ∨ nm = ""
      · have hk : pinKept p = false := by
          simp [pinKept, hnm]
          rcases hs with h1 | h1 | h1 <;> simp [h1]
        simp [collectPins, hnm, hs, ih', List.filter_cons, hk]
      · have hk : pinKept p = true := by
          push_neg at hs
          simp [pinKept, hnm]
          tauto
        simp [collectPins, hnm, hs, ih', List.filter_cons, hk]

/-- If some pin name in the list is unreadable, the whole pin loop
raises. -/
theorem collectPins_bad (ps : List Pin)
    (h : ∃ p ∈ ps, p.pin_name = none) :
    collectPins ps = none := by
  induction ps with
  | nil => simp at h
  | cons p ps ih =>
    rcases h with ⟨q, hq, hqn⟩
    rcases List.mem_cons.mp hq with rfl | hmem
    · simp [collectPins, hqn]
    · cases hnm : p.pin_name with
      | none => simp [collectPins, hnm]
      | some nm =>
        have ih' := ih ⟨q, hmem, hqn⟩
        by_cases hs : nm = "execute" ∨ nm = "then" ∨ nm = "" <;>
          simp [collectPins, hnm, hs, ih']

/-- If some endpoint of the link list fails to resolve, the whole
`connected_to` loop raises. -/
theorem resolveLinks_bad (ls : List LinkedPin) (l : LinkedPin)
    (hmem : l ∈ ls) (hfail : l.owner_class = none ∨ l.pin_name = none) :
    resolveLinks ls = none := by
  induction ls with
  | nil => simp at hmem
  | cons x xs ih =>
    rcases List.mem_cons.mp hmem with rfl | hmem'
    · rcases hfail with h | h
      · simp [resolveLinks, h]
      · cases hoc : l.owner_class with
        | none => simp [resolveLinks, hoc]
        | some oc => simp [resolveLinks, hoc, h]
    · cases hoc : x.owner_class with
      | none => simp [resolveLinks, hoc]
      | some oc =>
        cases hpn : x.pin_name with
        | none => simp [resolveLinks, hoc, hpn]
        | some pn => simp [resolveLinks, hoc, hpn, ih hmem']

/-- The node loop keeps the fragments appended before the first raising
node and drops everything after it. -/
theorem collectNodesLoop_prefix (ns1 : List Node) (n : Node) (ns2 : List Node)
    (hok : ∀ m ∈ ns1, serialize_node m ≠ none) (hbad : serialize_node n = none) :
    collectNodesLoop (ns1 ++ n :: ns2) = List.filterMap serialize_node ns1 := by
  induction ns1 with
  | nil => simp [collectNodesLoop, hbad]
  | cons m ms ih =>
    have hm := hok m (by simp)
    cases hsm : serialize_node m with
    | none => exact absurd hsm hm
    | some f =>
      simp [collectNodesLoop, hsm, List.filterMap_cons,
        ih (fun x hx => hok x (by simp [hx]))]

/-- `stampType tag` is the `g["graph_type"] = tag` mutation performed by
the orchestrator after `serialize_graph` returns. -/
def stampType (tag : String) (f : GraphFrag) : GraphFrag :=
  { f with graph_type := some tag }

/-- The fragments one category contributes when no graph name read
raises: every graph of the collection, serialized and stamped, in
order (an unreadable collection contributes nothing). -/
def catSpec (tag : String) : Option (List Graph) → List GraphFrag
  | none => []
  | some gs => gs.filterMap (fun g => (serialize_graph g).map (stampType tag))

/-- When every graph name in the collection is readable, the category
loop appends exactly the serialized, stamped fragments. -/
theorem appendGraphsLoop_readable (tag : String) (gs : List Graph)
    (acc : List GraphFrag) (h : ∀ g ∈ gs, g.gname ≠ none) :
    appendGraphsLoop tag gs acc =
      acc ++ gs.filterMap (fun g => (serialize_graph g).map (stampType tag)) := by
  induction gs generalizing acc with
  | nil => simp [appendGraphsLoop]
  | cons g rest ih =>
    have hg := h g (by simp)
    cases hnm : g.gname with
    | none => exact absurd hnm hg
    | some nm =>
      have hser : serialize_graph g =
          some { gname := nm, gclass := g.gclass, nodes := collectNodes g.gnodes
                 graph_type := none } := by
        simp [serialize_graph, hnm]
      simp [appendGraphsLoop, hser, List.filterMap_cons,
        ih (acc ++ [_]) (fun x hx => h x (by simp [hx])), stampType]

/-- When every graph name in the collection is readable, one guarded
category block appends exactly `catSpec`. -/
theorem appendCat_readable (tag : String) (coll : Option (List Graph))
    (acc : List GraphFrag) (h : ∀ g ∈ coll.getD [], g.gname ≠ none) :
    appendCat tag coll acc = acc ++ catSpec tag coll := by
  cases coll with
  | none => simp [appendCat, catSpec]
  | some gs =>
    cases gs with
    | nil => simp [appendCat, catSpec]
    | cons g rest =>
      simp only [appendCat, List.isEmpty_cons, catSpec]
      exact appendGraphsLoop_readable tag (g :: rest) acc (by simpa using h)

/-! ## Concrete fixtures -/

/-- A minimal blueprint asset: every optional collection unreadable or
absent. -/
def assetStub : Asset :=
  { aname := "BP_Test", apath := "/Game/BP_Test", isBlueprint := true
    aclass := "Blueprint", generated_class := none, blueprint_type := none
    implemented_interfaces := none, scs := none, ubergraph_pages := none
    function_graphs := none, macro_graphs := none }

/-- A loaded asset that is not a blueprint. -/
def meshAsset : Asset :=
  { assetStub with isBlueprint := false, aclass := "StaticMesh" }

/-- An input pin carrying both a default value and a live connection. -/
def pinC2 : Pin :=
  { direction := some "EGPD_Input", pin_name := some "Value"
    pin_type := some { pin_category := some "int", pin_sub_category_object := some none }
    default_value := some "5"
    linked_to := some [{ owner_class := some "K2Node_CallFunction"
                         pin_name := some "ReturnValue" }] }

/-- A blueprint with one implemented-interface record whose resolution
fails. -/
def assetC3 : Asset :=
  { assetStub with implemented_interfaces := some [none] }

/-- A node whose unguarded identity read (`get_class().get_name()`)
raises. -/
def badNode : Node :=
  { nodeClass := none, nodeName := some "N1", node_comment := none
    function_reference := none, variable_reference := none
    custom_function_name := none, event_reference := none
    macro_graph_reference := none, pins := none }

/-- A perfectly serializable node. -/
def goodNode : Node :=
  { nodeClass := some "K2Node_CallFunction", nodeName := some "N2"
    node_comment := none, function_reference := none, variable_reference := none
    custom_function_name := none, event_reference := none
    macro_graph_reference := none, pins := none }

/-- A graph whose first node raises on its identity read and whose
second node is fine. -/
def graphC4 : Graph :=
  { gname := some "EventGraph_0", gclass := some "EdGraph"
    gnodes := some [badNode, goodNode] }

/-- A pin whose `pin_name` read raises. -/
def badNamePin : Pin :=
  { direction := some "EGPD_Input", pin_name := none, pin_type := none
    default_value := none, linked_to := none }

/-- A pin that serializes without any failure. -/
def goodPin : Pin :=
  { direction := some "EGPD_Input", pin_name := some "Target", pin_type := none
    default_value := none, linked_to := none }

/-- A pin whose direction read raises but whose name is readable. -/
def badDirPin : Pin :=
  { direction := none, pin_name := some "In", pin_type := none
    default_value := none, linked_to := none }

/-- A node holding a fine pin followed by a pin whose name read
raises. -/
def nodeC5 : Node :=
  { nodeClass := some "K2Node_Knot", nodeName := some "N3", node_comment := none
    function_reference := none, variable_reference := none
    custom_function_name := none, event_reference := none
    macro_graph_reference := none, pins := some [goodPin, badNamePin] }

/-! ## Claims -/

/-- C1: for every asset path, `blueprint_to_text` returns an error
document rather than raising in exactly two fatal cases — an
unresolvable path yields `{"error": "Asset not found: <path>"}`, a
non-Blueprint asset yields
`{"error": "Asset is not a Blueprint: <path> (class: <actualKind>)"}` —
both documents holding only the `error` key; any resolved Blueprint
yields a document with no `error` key. -/
theorem claim_c1 (asset_path : String) :
    blueprint_to_text asset_path none = errDoc ("Asset not found: " ++ asset_path) ∧
    (∀ a : Asset, a.isBlueprint = false →
      blueprint_to_text asset_path (some a) =
        errDoc ("Asset is not a Blueprint: " ++ asset_path ++ " (class: " ++ a.aclass ++ ")")) ∧
    (∀ a : Asset, a.isBlueprint = true →
      (blueprint_to_text asset_path (some a)).error = none) := by
  refine ⟨rfl, ?_, ?_⟩ <;> intro a h <;> simp [blueprint_to_text, h]

/-- Witness for C1 at concrete inputs. -/
theorem claim_c1_witness :
    blueprint_to_text "/Game/Missing" none = errDoc "Asset not found: /Game/Missing" ∧
    blueprint_to_text "/Game/Mesh" (some meshAsset) =
      errDoc "Asset is not a Blueprint: /Game/Mesh (class: StaticMesh)" ∧
    (blueprint_to_text "/Game/BP_Test" (some assetStub)).error = none := by
  refine ⟨(claim_c1 "/Game/Missing").1, ?_, ?_⟩
  · exact (claim_c1 "/Game/Mesh").2.1 meshAsset rfl
  · exact (claim_c1 "/Game/BP_Test").2.2 assetStub rfl

/-- C2 counterexample: `pinC2` is connected (its fragment carries
`connected_to`) yet its fragment also carries `default`, so a connected
pin can carry a `default` field. -/
theorem claim_c2_cex :
    (serialize_pin pinC2).connected_to = some ["K2Node_CallFunction:ReturnValue"] ∧
    (serialize_pin pinC2).default = some "5" :=
  ⟨rfl, rfl⟩

/-- C2 (amended): for a pin whose direction and name reads succeed, the
`default` field is present exactly when a non-empty default value string
resolves, regardless of whether the pin is connected. -/
theorem claim_c2 (p : Pin) (dir nm : String)
    (hd : p.direction = some dir) (hn : p.pin_name = some nm) :
    ((serialize_pin p).default = none ↔
      (p.default_value = none ∨ p.default_value = some "")) ∧
    (∀ d : String, p.default_value = some d → d ≠ "" →
      (serialize_pin p).default = some d) := by
  constructor
  · cases hdv : p.default_value with
    | none => simp [serialize_pin, hd, hn, get_pin_default, hdv]
    | some d =>
      by_cases hde : d = "" <;>
        simp [serialize_pin, hd, hn, get_pin_default, hdv, hde]
  · intro d hdv hde
    simp [serialize_pin, hd, hn, get_pin_default, hdv, hde]

/-- Witness for C2's amended theorem at a concrete input. -/
theorem claim_c2_witness : (serialize_pin pinC2).default = some "5" :=
  (claim_c2 pinC2 "EGPD_Input" "Value" rfl rfl).2 "5" rfl (by decide)

/-- C3 counterexample: `assetC3` has one implemented-interface record
and it fails resolution, yet the output carries `interfaces` as an
empty list instead of omitting the key. -/
theorem claim_c3_cex :
    assetC3.implemented_interfaces = some [none] ∧
    (blueprint_to_text "/Game/BP_Test" (some assetC3)).interfaces = some [] :=
  ⟨rfl, rfl⟩

/-- C3 (amended): for a resolved Blueprint, `interfaces` is omitted
exactly when the implemented-interfaces collection is unreadable or
empty; when the collection is non-empty the key is always present and
holds the successfully resolved names (so all-failing records yield an
empty list, not an omitted key). -/
theorem claim_c3 (asset_path : String) (a : Asset) (hbp : a.isBlueprint = true) :
    ((blueprint_to_text asset_path (some a)).interfaces = none ↔
      (a.implemented_interfaces = none ∨ a.implemented_interfaces = some [])) ∧
    (∀ l : List (Option String), a.implemented_interfaces = some l → l ≠ [] →
      (blueprint_to_text asset_path (some a)).interfaces = some (l.filterMap id)) := by
  constructor
  · cases hi : a.implemented_interfaces with
    | none => simp [blueprint_to_text, hbp, interfacesField, hi]
    | some l =>
      cases l with
      | nil => simp [blueprint_to_text, hbp, interfacesField, hi]
      | cons x xs => simp [blueprint_to_text, hbp, interfacesField, hi]
  · intro l hi hne
    simp [blueprint_to_text, hbp, interfacesField, hi, hne]

/-- Witness for C3's amended theorem at a concrete input. -/
theorem claim_c3_witness :
    (blueprint_to_text "/Game/Iface" (some assetC3)).interfaces = some [] :=
  (claim_c3 "/Game/Iface" assetC3 rfl).2 [none] rfl (by decide)

/-- C4 counterexample: in `graphC4` the first node's identity read
raises while the second node is perfectly serializable, yet the emitted
graph fragment contains no node at all — the failure of one node dropped
its sibling. -/
theorem claim_c4_cex :
    serialize_node goodNode ≠ none ∧
    serialize_graph graphC4 =
      some { gname := "EventGraph_0", gclass := some "EdGraph"
             nodes := [], graph_type := none } :=
  ⟨by decide, rfl⟩

/-- C4 (amended): failures below the two fatal conditions never abort
the export, and they are confined for properties, components and a
node's guarded sub-reads — a failing property or construction-script
record is skipped while its siblings are still emitted, and a node whose
identity reads succeed is always emitted whatever its other reads do —
but a node whose identity reads fail drops all later nodes of the same
graph (the earlier fragments and the graph fragment itself are still
emitted). -/
theorem claim_c4 :
    (∀ (gc : GenClass) (ps1 : List PropRec) (p : PropRec) (ps2 : List PropRec),
      gc.hasCdo = true → gc.props = some (ps1 ++ p :: ps2) → serializeProp p = none →
      get_property_info gc =
        List.filterMap serializeProp ps1 ++ List.filterMap serializeProp ps2) ∧
    (∀ (a : Asset) (cs1 : List SCSNode) (c : SCSNode) (cs2 : List SCSNode),
      a.scs = some (cs1 ++ c :: cs2) → serializeComp c = none →
      get_components a =
        List.filterMap serializeComp cs1 ++ List.filterMap serializeComp cs2) ∧
    (∀ (n : Node) (nc nm : String),
      n.nodeClass = some nc → n.nodeName = some nm → serialize_node n ≠ none) ∧
    (∀ (g : Graph) (gnm : String) (ns1 : List Node) (n : Node) (ns2 : List Node),
      g.gname = some gnm → g.gnodes = some (ns1 ++ n :: ns2) →
      (∀ m ∈ ns1, serialize_node m ≠ none) → serialize_node n = none →
      serialize_graph g =
        some { gname := gnm, gclass := g.gclass
               nodes := List.filterMap serialize_node ns1, graph_type := none }) := by
  refine ⟨?_, ?_, ?_, ?_⟩
  · intro gc ps1 p ps2 hcdo hprops hbad
    simp [get_property_info, hcdo, hprops, List.filterMap_append,
      List.filterMap_cons, hbad]
  · intro a cs1 c cs2 hscs hbad
    simp [get_components, hscs, List.filterMap_append, List.filterMap_cons, hbad]
  · intro n nc nm hc hnm
    simp [serialize_node, hc, hnm]
  · intro g gnm ns1 n ns2 hname hnodes hok hbad
    simp [serialize_graph, hname, collectNodes, hnodes,
      collectNodesLoop_prefix ns1 n ns2 hok hbad]

/-- A property record whose identity read raises. -/
def badProp : PropRec :=
  { pname := none, pclass := some "IntProperty", defaultVal := none
    f_visible := none, f_readonly := none, f_editany := none, f_replicate := none }

/-- A generated class holding only the failing property record. -/
def gcC4 : GenClass :=
  { gcname := some "BP_Test_C", superClass := some "Actor", hasCdo := true
    props := some [badProp] }

/-- A construction-script node whose template fails to resolve. -/
def badComp : SCSNode :=
  { template := none, tname := none, tclass := none, parent_read := none }

/-- A blueprint whose construction script holds only the failing
component record. -/
def assetC4 : Asset := { assetStub with scs := some [badComp] }

/-- Witness for C4's amended theorem at concrete inputs. -/
theorem claim_c4_witness :
    get_property_info gcC4 = [] ∧
    get_components assetC4 = [] ∧
    serialize_node goodNode ≠ none ∧
    serialize_graph graphC4 =
      some { gname := "EventGraph_0", gclass := some "EdGraph"
             nodes := [], graph_type := none } := by
  refine ⟨?_, ?_, ?_, ?_⟩
  · exact claim_c4.1 gcC4 [] badProp [] rfl rfl rfl
  · exact claim_c4.2.1 assetC4 [] badComp [] rfl rfl
  · exact claim_c4.2.2.1 goodNode "K2Node_CallFunction" "N2" rfl rfl
  · exact claim_c4.2.2.2 graphC4 "EventGraph_0" [] badNode [goodNode] rfl rfl
      (by simp) rfl

/-- C5 counterexample: `nodeC5` holds a fine pin followed by a pin whose
name read raises; the node is emitted but its `pins` key is absent — the
failing pin's slot got no fallback fragment and even the fine sibling's
slot was lost. -/
theorem claim_c5_cex :
    (serialize_node nodeC5).map NodeFrag.pins = some none ∧
    serialize_pin goodPin ≠ fallbackPinFrag :=
  ⟨rfl, by decide⟩

/-- C5 (amended): a pin whose name reads successfully and passes
filtering does occupy its slot — a total `serialize_pin` failure (an
unreadable direction) puts the minimal fallback fragment there and the
kept slots of the node's pin list are all emitted — but a pin whose name
read itself raises makes the node's whole `pins` field be omitted
(losing every slot), while still never propagating past that field. -/
theorem claim_c5 :
    (∀ (p : Pin) (nm : String), p.pin_name = some nm → p.direction = none →
      serialize_pin p = fallbackPinFrag) ∧
    (∀ ps : List Pin, (∀ q ∈ ps, q.pin_name ≠ none) →
      collectPins ps = some ((ps.filter pinKept).map serialize_pin)) ∧
    (∀ (n : Node) (nc nm : String) (ps : List Pin),
      n.nodeClass = some nc → n.nodeName = some nm → n.pins = some ps →
      (∃ q ∈ ps, q.pin_name = none) →
      (serialize_node n).map NodeFrag.pins = some none) := by
  refine ⟨?_, ?_, ?_⟩
  · intro p nm hn hd
    simp [serialize_pin, hd]
  · exact collectPins_all_readable
  · intro n nc nm ps hc hnm hp hbad
    have hps : ps ≠ [] := by
      rcases hbad with ⟨q, hq, _⟩
      exact List.ne_nil_of_mem hq
    simp [serialize_node, hc, hnm, nodePinsField, hp, hps,
      collectPins_bad ps hbad]

/-- Witness for C5's amended theorem at concrete inputs. -/
theorem claim_c5_witness :
    serialize_pin badDirPin = fallbackPinFrag ∧
    collectPins [badDirPin] = some [fallbackPinFrag] ∧
    (serialize_node nodeC5).map NodeFrag.pins = some none := by
  refine ⟨?_, ?_, ?_⟩
  · exact claim_c5.1 badDirPin "In" rfl rfl
  · have h := claim_c5.2.1 [badDirPin] (by decide)
    exact h.trans (by rfl)
  · exact claim_c5.2.2 nodeC5 "K2Node_Knot" "N3" [goodPin, badNamePin] rfl rfl rfl
      ⟨badNamePin, by simp, rfl⟩

/-- A sentinel `execute` pin. -/
def execPin : Pin :=
  { direction := some "EGPD_Input", pin_name := some "execute", pin_type := none
    default_value := none, linked_to := none }

/-- A sentinel `then` pin. -/
def thenPin : Pin :=
  { direction := some "EGPD_Output", pin_name := some "then", pin_type := none
    default_value := none, linked_to := none }

/-- A pin with an empty name. -/
def blankPin : Pin :=
  { direction := some "EGPD_Input", pin_name := some "", pin_type := none
    default_value := none, linked_to := none }

/-- A node mixing sentinel pins with one data pin. -/
def nodeC6 : Node :=
  { nodeClass := some "K2Node_Knot", nodeName := some "N6", node_comment := none
    function_reference := none, variable_reference := none
    custom_function_name := none, event_reference := none
    macro_graph_reference := none
    pins := some [execPin, goodPin, thenPin, blankPin] }

/-- C6: for a node whose identity and pin names are readable, the
emitted `pins` list is exactly the pins whose name is not `execute`,
`then` or empty, serialized in host-declared order, and the field is
omitted when that filtered list is empty — so a sentinel-named pin never
appears, whatever its other attributes. -/
theorem claim_c6 (n : Node) (nc nm : String) (ps : List Pin)
    (hc : n.nodeClass = some nc) (hn : n.nodeName = some nm)
    (hp : n.pins = some ps) (hnames : ∀ p ∈ ps, p.pin_name ≠ none) :
    (serialize_node n).map NodeFrag.pins =
      some (if ((ps.filter pinKept).map serialize_pin).isEmpty then none
            else some ((ps.filter pinKept).map serialize_pin)) := by
  have hcp := collectPins_all_readable ps hnames
  cases hps : ps with
  | nil => simp [serialize_node, hc, hn, nodePinsField, hp, hps]
  | cons q qs =>
    rw [hps] at hcp
    simp [serialize_node, hc, hn, nodePinsField, hp, hps, hcp]

/-- Witness for C6 at a concrete input: the `execute`, `then` and
empty-named pins vanish; the one data pin survives in order. -/
theorem claim_c6_witness :
    (serialize_node nodeC6).map NodeFrag.pins = some (some [serialize_pin goodPin]) := by
  have h := claim_c6 nodeC6 "K2Node_Knot" "N6" [execPin, goodPin, thenPin, blankPin]
    rfl rfl rfl (by decide)
  exact h.trans (by rfl)

/-- The node kinds the serializer special-cases (`serialize_node` lines
71-106). -/
def recognizedNodeKinds : List String :=
  ["K2Node_CallFunction", "K2Node_VariableGet", "K2Node_VariableSet",
   "K2Node_Event", "K2Node_CustomEvent", "K2Node_MacroInstance"]

/-- C7: a node of unrecognized kind gets no extension field, and every
extension field appears only on fragments of its matching kind tag. -/
theorem claim_c7 (n : Node) (frag : NodeFrag) (h : serialize_node n = some frag) :
    (frag.nclass ∉ recognizedNodeKinds →
      frag.function = none ∧ frag.target_class = none ∧ frag.varRef = none ∧
      frag.event_name = none ∧ frag.macroGraph = none) ∧
    ((frag.function ≠ none ∨ frag.target_class ≠ none) →
      frag.nclass = "K2Node_CallFunction") ∧
    (frag.varRef ≠ none →
      frag.nclass = "K2Node_VariableGet" ∨ frag.nclass = "K2Node_VariableSet") ∧
    (frag.event_name ≠ none →
      frag.nclass = "K2Node_Event" ∨ frag.nclass = "K2Node_CustomEvent") ∧
    (frag.macroGraph ≠ none → frag.nclass = "K2Node_MacroInstance") := by
  cases hc : n.nodeClass with
  | none => simp [serialize_node, hc] at h
  | some nc =>
    cases hnm : n.nodeName with
    | none => simp [serialize_node, hc, hnm] at h
    | some nm =>
      simp only [serialize_node, hc, hnm, Option.some.injEq] at h
      subst h
      simp only [extFields]
      split_ifs with h1 h2 h3 h4 <;>
        refine ⟨?_, ?_, ?_, ?_, ?_⟩ <;>
          simp_all [recognizedNodeKinds] <;>
          tauto

/-- A node of unrecognized kind whose extension-source reads would all
succeed. -/
def nodeC7 : Node :=
  { nodeClass := some "K2Node_Knot", nodeName := some "N7"
    node_comment := some "c"
    function_reference := some { member_name := some "F", member_parent := some "C" }
    variable_reference := some "V", custom_function_name := some "E"
    event_reference := some "E2", macro_graph_reference := some "M"
    pins := none }

/-- The fragment `serialize_node` emits for `nodeC7`. -/
def fragC7 : NodeFrag :=
  { nclass := "K2Node_Knot", nname := "N7", comment := some "c"
    function := none, target_class := none, varRef := none
    event_name := none, macroGraph := none, pins := none }

/-- Witness for C7 at a concrete input: the unrecognized node keeps only
the base fields. -/
theorem claim_c7_witness :
    fragC7.function = none ∧ fragC7.target_class = none ∧ fragC7.varRef = none ∧
    fragC7.event_name = none ∧ fragC7.macroGraph = none :=
  (claim_c7 nodeC7 fragC7 rfl).1 (by decide)

/-- A pin whose direction is readable (and an output) but whose name
read raises. -/
def pinC8 : Pin :=
  { direction := some "EGPD_Output", pin_name := none, pin_type := none
    default_value := none, linked_to := none }

/-- C8 counterexample: `pinC8`'s raw direction value reads successfully,
yet its emitted direction is `"unknown"` (the fallback fragment), not
`"Input"` or `"Output"`. -/
theorem claim_c8_cex :
    pinC8.direction = some "EGPD_Output" ∧
    (serialize_pin pinC8).direction = "unknown" :=
  ⟨rfl, rfl⟩

/-- C8 (amended): for a pin whose direction and name reads both succeed,
the emitted direction is `"Input"` exactly when the raw value's
uppercased text contains the `INPUT` marker and `"Output"` otherwise —
never anything else; `"unknown"` can arise only from the total-failure
fallback. -/
theorem claim_c8 (p : Pin) (dir nm : String)
    (hd : p.direction = some dir) (hn : p.pin_name = some nm) :
    ((serialize_pin p).direction = if isInputDir dir then "Input" else "Output") ∧
    ((serialize_pin p).direction = "Input" ∨ (serialize_pin p).direction = "Output") := by
  have hmain : (serialize_pin p).direction = if isInputDir dir then "Input" else "Output" := by
    simp [serialize_pin, hd, hn]
  refine ⟨hmain, ?_⟩
  rw [hmain]
  by_cases hi : isInputDir dir <;> simp [hi]

/-- Witness for C8's amended theorem at a concrete input. -/
theorem claim_c8_witness : (serialize_pin goodPin).direction = "Input" := by
  have h := (claim_c8 goodPin "EGPD_Input" "Target" rfl rfl).1
  exact h.trans (by decide)

/-- An event graph with an empty node collection. -/
def graphC9 : Graph :=
  { gname := some "EventGraph_0", gclass := some "EdGraph", gnodes := some [] }

/-- A blueprint with one event graph and no function or macro graphs. -/
def assetC9 : Asset := { assetStub with ubergraph_pages := some [graphC9] }

/-- C9: for a resolved Blueprint whose graph names are readable, the
`graphs` output is the event graphs stamped `EventGraph`, then the
function graphs stamped `Function`, then the macro graphs stamped
`Macro`, concatenated in that fixed order, the key being omitted exactly
when the combined list is empty; and every emitted graph fragment
carries a `nodes` key, equal to the empty list when the node collection
is empty or unreadable. -/
theorem claim_c9 (asset_path : String) (a : Asset) (hbp : a.isBlueprint = true)
    (h1 : ∀ g ∈ a.ubergraph_pages.getD [], g.gname ≠ none)
    (h2 : ∀ g ∈ a.function_graphs.getD [], g.gname ≠ none)
    (h3 : ∀ g ∈ a.macro_graphs.getD [], g.gname ≠ none) :
    ((blueprint_to_text asset_path (some a)).graphs =
      (if (catSpec "EventGraph" a.ubergraph_pages ++ catSpec "Function" a.function_graphs ++
            catSpec "Macro" a.macro_graphs).isEmpty then none
       else some (catSpec "EventGraph" a.ubergraph_pages ++
            catSpec "Function" a.function_graphs ++ catSpec "Macro" a.macro_graphs))) ∧
    (∀ (g : Graph) (frag : GraphFrag), serialize_graph g = some frag →
      g.gnodes = none ∨ g.gnodes = some [] → frag.nodes = []) := by
  constructor
  · have e1 := appendCat_readable "EventGraph" a.ubergraph_pages [] h1
    have e2 := appendCat_readable "Function" a.function_graphs
      (appendCat "EventGraph" a.ubergraph_pages []) h2
    have e3 := appendCat_readable "Macro" a.macro_graphs
      (appendCat "Function" a.function_graphs
        (appendCat "EventGraph" a.ubergraph_pages [])) h3
    simp only [blueprint_to_text, hbp, Bool.not_true, Bool.false_eq_true,
      if_false, graphsField]
    rw [e3, e2, e1]
    simp [List.append_assoc]
  · intro g frag hser hnodes
    cases hnm : g.gname with
    | none => simp [serialize_graph, hnm] at hser
    | some nm =>
      simp only [serialize_graph, hnm, Option.some.injEq] at hser
      rcases hnodes with h | h <;> simp [← hser, collectNodes, h, collectNodesLoop]

/-- Witness for C9 at a concrete input: one empty event graph. -/
theorem claim_c9_witness :
    (blueprint_to_text "/Game/BP_Test" (some assetC9)).graphs =
      some [{ gname := "EventGraph_0", gclass := some "EdGraph"
              nodes := [], graph_type := some "EventGraph" }] := by
  have h := (claim_c9 "/Game/BP_Test" assetC9 rfl (by decide) (by decide) (by decide)).1
  exact h.trans (by rfl)

/-- A pin whose first linked endpoint resolves but whose second linked
endpoint's owning-node read raises. -/
def pinC10 : Pin :=
  { direction := some "EGPD_Output", pin_name := some "Out", pin_type := none
    default_value := none
    linked_to := some [{ owner_class := some "K2Node_Event", pin_name := some "In" },
                       { owner_class := none, pin_name := some "In2" }] }

/-- C10: resolving `connected_to` is all-or-nothing — if any linked
endpoint's owning-node kind or pin name fails to resolve, the entire
`connected_to` field is omitted from the pin fragment, discarding the
cross-references already resolved for earlier endpoints. -/
theorem claim_c10 (p : Pin) (ls : List LinkedPin) (l : LinkedPin)
    (hl : p.linked_to = some ls) (hmem : l ∈ ls)
    (hfail : l.owner_class = none ∨ l.pin_name = none) :
    (serialize_pin p).connected_to = none := by
  have hres := resolveLinks_bad ls l hmem hfail
  cases hd : p.direction with
  | none => simp [serialize_pin, hd, fallbackPinFrag]
  | some dir =>
    cases hn : p.pin_name with
    | none => simp [serialize_pin, hd, hn, fallbackPinFrag]
    | some nm =>
      by_cases hls : ls.isEmpty <;> simp [serialize_pin, hd, hn, hl, hls, hres]

/-- Witness for C10 at a concrete input: the first endpoint's resolved
cross-reference is discarded along with the field. -/
theorem claim_c10_witness : (serialize_pin pinC10).connected_to = none :=
  claim_c10 pinC10
    [{ owner_class := some "K2Node_Event", pin_name := some "In" },
     { owner_class := none, pin_name := some "In2" }]
    { owner_class := none, pin_name := some "In2" }
    rfl (by decide) (Or.inl rfl)

end UeBlueprintToText
